import Mathlib

/-!
Verification of the NightWatch production-error triage service.

This file gives a shallow embedding, in Lean 4, of the parts of the
`nightwatch` Python package that the checked properties talk about:

* the data model (`nightwatch/models.py`),
* the adaptive iteration / thinking-budget calculations and the
  single-pass analysis loop (`nightwatch/analyzer.py`),
* the retry backoff of the LLM call (`nightwatch/analyzer.py`),
* the knowledge store: tag extraction, match scoring, compounding writes,
  index rebuilding and index-first search (`nightwatch/knowledge.py`),
* the file-hotspot pattern detector (`nightwatch/patterns.py`),
* the pipeline state manager (`nightwatch/orchestration/state_manager.py`),
* the post-pass quality score (modelled from the spec; see the doc comment
  on `evaluate_analysis_quality`).

Python floats are modelled as exact rationals (`ℚ`), Python `int` as `ℕ`/`ℤ`
(the quantities involved are non-negative counters or token counts), Python
strings as `String`, Python `dict`s that are iterated in insertion order as
association lists, and Python sets as deduplicated lists (only membership
and cardinality of such sets are ever consumed).  External effects (the LLM,
the clock, the file system) are passed in as explicit parameters.
-/

namespace NightWatch

/-! ## Data model (`nightwatch/models.py`) -/

/-- Embeds `Confidence(StrEnum)` with values high / medium / low. -/
inductive Confidence where
  | high
  | medium
  | low
deriving DecidableEq, Repr

/-- Embeds `str(confidence)` for the `StrEnum`: the enum's string value. -/
def confidence_to_str : Confidence → String
  | .high => "high"
  | .medium => "medium"
  | .low => "low"

/-- Embeds `FileChange` (path, action, content, description); the `action`
is one of the literals "modify" / "create" / "delete", kept as a string. -/
structure FileChange where
  path : String
  action : String
  content : Option String := none
  description : String := ""
deriving DecidableEq, Repr

/-- Embeds `Analysis`: Claude's structured analysis of a production error. -/
structure Analysis where
  title : String
  reasoning : String
  root_cause : String
  has_fix : Bool
  confidence : Confidence
  file_changes : List FileChange := []
  suggested_next_steps : List String := []
deriving DecidableEq, Repr

/-- Embeds `ErrorGroup`: one aggregated error from New Relic. -/
structure ErrorGroup where
  error_class : String
  transaction : String
  message : String
  occurrences : Nat
  last_seen : String
  http_path : String := ""
  entity_guid : Option String := none
  host : String := ""
  score : ℚ := 0
deriving DecidableEq, Repr

/-- Embeds `TraceData`; the trace dictionaries are opaque payloads. -/
structure TraceData where
  transaction_errors : List String := []
  error_traces : List String := []
deriving DecidableEq, Repr

/-- Embeds `TokenBreakdown` (detailed token usage; never inspected here). -/
structure TokenBreakdown where
  input_tokens : Nat := 0
  output_tokens : Nat := 0
  thinking_tokens : Nat := 0
  cache_read_tokens : Nat := 0
  cache_write_tokens : Nat := 0
  tool_result_tokens : Nat := 0
deriving DecidableEq, Repr

/-- Embeds `ErrorAnalysisResult`: error + analysis + usage accounting. -/
structure ErrorAnalysisResult where
  error : ErrorGroup
  analysis : Analysis
  traces : TraceData
  iterations : Nat := 0
  tokens_used : Nat := 0
  api_calls : Nat := 0
  issue_score : ℚ := 0
  pass_count : Nat := 1
  context_files_contributed : Nat := 0
  quality_score : ℚ := 0
  token_breakdown : Option TokenBreakdown := none
deriving DecidableEq, Repr

/-! ## String helpers shared by several embedded functions -/

/-- Embeds the Python substring test `needle in hay`. -/
def str_contains (hay needle : String) : Bool :=
  (List.range (hay.data.length + 1)).any fun i => needle.data.isPrefixOf (hay.data.drop i)

/-- Embeds Python `s.lower()`: lowercase character by character (equal to
`String.toLower`, but structural so that concrete instances reduce). -/
def py_lower (s : String) : String :=
  String.mk (s.data.map Char.toLower)

/-- Embeds Python `s.strip()`: drop whitespace from both ends. -/
def py_strip (s : String) : String :=
  String.mk (((s.data.dropWhile Char.isWhitespace).reverse.dropWhile Char.isWhitespace).reverse)

/-- Splitting worker: emits the accumulated (reversed) chunk at each
separator, like `String.splitAux`. -/
def split_go (sep : Char → Bool) : List Char → List Char → List String
  | [], cur => [String.mk cur.reverse]
  | c :: cs, cur =>
      if sep c then String.mk cur.reverse :: split_go sep cs []
      else split_go sep cs (c :: cur)

/-- Embeds splitting a string at every character satisfying `sep` (equal to
`String.split`; empty chunks between adjacent separators are kept, matching
`re.split` with a character class — the empty chunks that `re.split`'s `+`
avoids are discarded as noise downstream). -/
def py_split (s : String) (sep : Char → Bool) : List String :=
  split_go sep s.data []

/-- Embeds Python `s[:n]` on strings: the first `n` characters. -/
def py_take (s : String) (n : Nat) : String :=
  String.mk (s.data.take n)

/-! ## Adaptive budgets (`nightwatch/analyzer.py`, `_calculate_max_iterations`
and `_calculate_thinking_budget`) -/

/-- Embeds the module constant `_SIMPLE_ERRORS`. -/
def simple_errors : List String :=
  ["nomethoderror", "nameerror", "argumenterror",
   "typeerror", "keyerror", "attributeerror"]

/-- Embeds the module constant `_AUTH_ERRORS`. -/
def auth_errors : List String :=
  ["notauthorized", "forbidden", "authentication", "unauthorized"]

/-- Embeds the module constant `_DB_ERRORS`. -/
def db_errors : List String :=
  ["activerecord", "pg::", "statementinvalid", "deadlock", "mysql"]

/-- Embeds the module constant `_COMPLEX_ERRORS`. -/
def complex_errors : List String :=
  ["systemstackerror", "timeout", "connectionerror", "nomemoryerror", "segfault"]

/-- Embeds `any(p in ec for p in patterns)`. -/
def any_pattern (patterns : List String) (ec : String) : Bool :=
  patterns.any fun p => str_contains ec p

/-- Embeds `ec = error_class.lower() if error_class else ""`. -/
def lowered_class (error_class : String) : String :=
  if error_class = "" then "" else py_lower error_class

/-- Embeds `_calculate_max_iterations(error_class, settings_max)`. -/
def calculate_max_iterations (error_class : String) (settings_max : Nat) : Nat :=
  let ec := lowered_class error_class
  if any_pattern simple_errors ec then min 7 settings_max
  else if any_pattern auth_errors ec then min 5 settings_max
  else if any_pattern db_errors ec then min 10 settings_max
  else if any_pattern complex_errors ec then min 15 settings_max
  else min 10 settings_max

/-- Embeds Python `int(x)` on a rational value: truncation toward zero. -/
def py_int (q : ℚ) : ℤ :=
  if 0 ≤ q then ⌊q⌋ else ⌈q⌉

/-- Embeds Python `min(a, b)` on floats (kept as an `ite` so that concrete
instances reduce by `decide`; numerically equal to the lattice `min`). -/
def py_min (a b : ℚ) : ℚ :=
  if a ≤ b then a else b

/-- Embeds Python `max(a, b)` on floats. -/
def py_max (a b : ℚ) : ℚ :=
  if b ≤ a then a else b

/-- Embeds Python `max(a, b)` on ints. -/
def py_max_int (a b : ℤ) : ℤ :=
  if b ≤ a then a else b

/-- Embeds `_calculate_thinking_budget(iteration, max_iterations, error_class)`. -/
def calculate_thinking_budget (iteration max_iterations : Nat) (error_class : String) : ℤ :=
  let ec := lowered_class error_class
  let base : ℤ :=
    if any_pattern simple_errors ec then 4000
    else if any_pattern complex_errors ec then 12000
    else 8000
  let scale : ℚ :=
    if iteration ≤ 2 ∨ max_iterations ≤ 2 then 1
    else 1 - (3/4) * (((iteration : ℚ) - 2) / ((max_iterations : ℚ) - 2))
  py_max_int 2000 (py_int ((base : ℚ) * scale))

/-! ## LLM call retry backoff (`nightwatch/analyzer.py`,
`_call_claude_with_retry`, rate-limit branch for status 429/529) -/

/-- Embeds the single wall-clock delay computed for one rate-limited retry
attempt (0-based `attempt`), before `time.sleep(delay)`:

* with a `retry-after` header: `delay = float(retry_after) + random.uniform(1, 5)`;
* without: `delay = min(base_delay * (2**attempt), 120); delay += random.uniform(1, 5)`.

The jitter drawn by `random.uniform(1, 5)` is passed in explicitly. -/
def rate_limit_delay (retry_after : Option ℚ) (base_delay : ℚ) (attempt : Nat) (jitter : ℚ) : ℚ :=
  match retry_after with
  | some ra => ra + jitter
  | none => py_min (base_delay * 2 ^ attempt) 120 + jitter

/-! ## Multi-pass orchestration (`nightwatch/analyzer.py`, `analyze_error`
lines 92-131, and `_confidence_rank`) -/

/-- Embeds `_confidence_rank`: `{"low": 0, "medium": 1, "high": 2}.get(str(c).lower(), 0)`. -/
def confidence_rank (confidence : Confidence) : Nat :=
  let ranks : List (String × Nat) := [("low", 0), ("medium", 1), ("high", 2)]
  (ranks.lookup (py_lower (confidence_to_str confidence))).getD 0

/-- Embeds the settings consulted by `analyze_error`'s multi-pass logic. -/
structure MultiPassSettings where
  multi_pass_enabled : Bool
  max_passes : Nat

/-- Embeds the multi-pass retry logic of `analyze_error` (lines 92-131).
The two `_single_pass` outcomes are supplied as parameters (`pass2` is the
outcome the second pass would produce if it runs); the LLM is external
nondeterminism.  When the retry triggers, the totals of both passes are
accumulated onto the pass-2 result, `pass_count` is set to 2, and pass 1's
`Analysis` is restored only if pass 2's confidence rank is strictly lower. -/
def analyze_error_multi_pass (settings : MultiPassSettings)
    (pass1 pass2 : ErrorAnalysisResult) : ErrorAnalysisResult :=
  if settings.multi_pass_enabled
      ∧ pass1.analysis.confidence = Confidence.low
      ∧ 1 < settings.max_passes then
    let result := { pass2 with
      tokens_used := pass2.tokens_used + pass1.tokens_used
      api_calls := pass2.api_calls + pass1.api_calls
      iterations := pass2.iterations + pass1.iterations
      pass_count := 2 }
    if confidence_rank result.analysis.confidence < confidence_rank pass1.analysis.confidence then
      { result with analysis := pass1.analysis }
    else
      result
  else
    pass1

/-! ## Conversation model and compression (`nightwatch/analyzer.py`,
`_compress_conversation` and the in-loop trigger at line 318) -/

/-- Embeds one content block of an assistant message (a dict with a `type`
tag; only `tool_use` blocks carry a name and an input, and only those are
inspected by compression; the input dict is kept as its repr string). -/
structure Block where
  btype : String
  name : String := ""
  input : String := ""
  text : String := ""
deriving DecidableEq, Repr

/-- Embeds a message's `content`: either a plain string or a block list. -/
inductive MsgContent where
  | str (s : String)
  | blocks (bs : List Block)
deriving DecidableEq, Repr

/-- Embeds one conversation message `{"role": ..., "content": ...}`. -/
structure Msg where
  role : String
  content : MsgContent
deriving DecidableEq, Repr

/-- Embeds the tool-call lines extracted from one middle message:
for a list-valued content, one `- {name}: {input}` line per `tool_use` block. -/
def msg_tool_calls (msg : Msg) : List String :=
  match msg.content with
  | .str _ => []
  | .blocks bs => bs.filterMap fun block =>
      if block.btype = "tool_use" then some (s!"- {block.name}: {block.input}") else none

/-- Embeds the synthetic summary string built by `_compress_conversation`
from the dropped middle messages. -/
def compress_summary (middle : List Msg) : String :=
  let tool_calls := (middle.map msg_tool_calls).flatten
  let n := middle.length
  let base := s!"[COMPRESSED — {n} messages summarized]\n"
  if tool_calls = [] then base
  else
    let k := tool_calls.length
    let listing := base ++ s!"Tools used ({k} calls):\n"
        ++ String.intercalate "\n" (tool_calls.take 5)
    if 5 < k then listing ++ s!"\n... and {k - 5} more" else listing

/-- Embeds `_compress_conversation(messages)`: below 7 messages the list is
returned unchanged; otherwise the first message and the last four are kept
and the middle is replaced by one synthetic user message. -/
def compress_conversation (messages : List Msg) : List Msg :=
  if messages.length ≤ 6 then messages
  else
    let first := messages.take 1
    let recent := messages.drop (messages.length - 4)
    let middle := (messages.drop 1).take (messages.length - 5)
    first ++ [{ role := "user", content := .str (compress_summary middle) }] ++ recent

/-- Embeds the in-loop compression trigger (`_single_pass` line 318):
`if iteration > 6 and len(messages) > 8: messages = _compress_conversation(messages)`. -/
def loop_compress_step (iteration : Nat) (messages : List Msg) : List Msg :=
  if 6 < iteration ∧ 8 < messages.length then compress_conversation messages else messages

/-! ## Single-pass analysis loop (`nightwatch/analyzer.py`, `_single_pass`) -/

/-- Embeds one LLM response as consumed by the loop: its stop reason
(`tool_use` or final), the tokens it charges, the parsed `Analysis` for the
final case (the output of `_parse_analysis`), and the two messages appended
in the tool-use case (the serialized assistant turn and the tool results). -/
structure LoopResp where
  is_tool_use : Bool
  tokens : Nat
  analysis : Analysis
  assistant_msg : Msg
  tool_results_msg : Msg

/-- Embeds the result constructed when the `while` loop of `_single_pass`
exits without a final answer (iteration ceiling reached, or token budget
tripped the in-loop `break`): a low-confidence, no-fix analysis whose
reasoning reads "Analysis incomplete — hit iteration limit". -/
def exhausted_result (error : ErrorGroup) (traces : TraceData)
    (iterations total_tokens api_calls : Nat) : ErrorAnalysisResult :=
  { error := error
    analysis :=
      { title := error.error_class ++ " in " ++ error.transaction
        reasoning := "Analysis incomplete — hit iteration limit"
        root_cause := "Unknown — analysis did not complete"
        has_fix := false
        confidence := .low
        suggested_next_steps := ["Manual investigation required"] }
    traces := traces
    iterations := iterations
    tokens_used := total_tokens
    api_calls := api_calls }

/-- Embeds the result constructed when the loop parses a final answer. -/
def final_result (error : ErrorGroup) (traces : TraceData) (analysis : Analysis)
    (iterations total_tokens api_calls : Nat) : ErrorAnalysisResult :=
  { error := error
    analysis := analysis
    traces := traces
    iterations := iterations
    tokens_used := total_tokens
    api_calls := api_calls }

/-- Embeds the `while iteration < max_iterations` loop body of `_single_pass`.
`fuel` is the number of loop entries still allowed (`max_iterations -
iteration`); `resps` maps the api-call counter to the LLM response of that
call.  Each round increments the iteration, breaks out if the running token
total exceeds the budget, otherwise calls the LLM; a `tool_use` response
appends the assistant turn and the tool results and possibly compresses the
conversation, a final response returns the parsed analysis. -/
def single_pass_go (error : ErrorGroup) (traces : TraceData) (token_budget : Nat)
    (resps : Nat → LoopResp) :
    Nat → List Msg → Nat → Nat → Nat → ErrorAnalysisResult
  | 0, _messages, iteration, total_tokens, api_calls =>
      exhausted_result error traces iteration total_tokens api_calls
  | fuel + 1, messages, iteration, total_tokens, api_calls =>
      let iteration := iteration + 1
      if token_budget < total_tokens then
        exhausted_result error traces iteration total_tokens api_calls
      else
        let r := resps api_calls
        let total_tokens := total_tokens + r.tokens
        let api_calls := api_calls + 1
        if r.is_tool_use then
          let messages := messages ++ [r.assistant_msg, r.tool_results_msg]
          let messages := loop_compress_step iteration messages
          single_pass_go error traces token_budget resps fuel messages iteration total_tokens api_calls
        else
          final_result error traces r.analysis iteration total_tokens api_calls

/-- Embeds a whole run of the `_single_pass` loop from the initial prompt
message, with `max_iterations` already computed and the per-error token
budget taken from settings. -/
def single_pass_run (error : ErrorGroup) (traces : TraceData)
    (max_iterations token_budget : Nat) (resps : Nat → LoopResp)
    (initial_message : Msg) : ErrorAnalysisResult :=
  single_pass_go error traces token_budget resps max_iterations [initial_message] 0 0 0

/-! ## Post-pass quality score -/

/-- Embeds the confidence mapping `high→0.9, medium→0.6, low→0.3`
(unknown→0.5 is unreachable for the typed enum); spec §3.6. -/
def confidence_to_float (confidence : Confidence) : ℚ :=
  let mapping : List (String × ℚ) := [("high", 9/10), ("medium", 6/10), ("low", 3/10)]
  (mapping.lookup (py_lower (confidence_to_str confidence))).getD (1/2)

/-- Modelled from the spec: the post-pass quality score
`_evaluate_analysis_quality` (spec §4.4.5) is imported from
`nightwatch.analyzer` by the repository's tests but its definition is
missing from the sources provided; this definition follows the spec's
formula.  `score = 0.5·conf(confidence) + 0.20·has_fix (0.10 if has_fix but
no file_changes) + 0.15·(len(root_cause)>20 ∧ root_cause≠"Unknown") +
0.10·(len(reasoning)>200) + 0.05·min(1, len(next_steps)/3)`, clamped to
`[0,1]`. -/
def evaluate_analysis_quality (result : ErrorAnalysisResult) : ℚ :=
  let a := result.analysis
  let score : ℚ :=
    (1/2) * confidence_to_float a.confidence
    + (if a.has_fix then (if a.file_changes = [] then 1/10 else 2/10) else 0)
    + (if 20 < a.root_cause.length ∧ a.root_cause ≠ "Unknown" then 3/20 else 0)
    + (if 200 < a.reasoning.length then 1/10 else 0)
    + (1/20) * py_min 1 ((a.suggested_next_steps.length : ℚ) / 3)
  py_min 1 (py_max 0 score)

/-! ## File-hotspot pattern detection (`nightwatch/patterns.py`,
`_detect_file_hotspots`) -/

/-- Embeds `DetectedPattern`: a systemic pattern across multiple errors. -/
structure DetectedPattern where
  title : String
  description : String
  error_classes : List String
  modules : List String
  occurrences : Nat
  suggestion : String
  pattern_type : String
deriving DecidableEq, Repr

/-- Stable insertion of one element into a list sorted by the boolean
relation `le`: the element is placed before the first entry it may precede.
Folding this from the right reproduces Python's stable `sort`. -/
def insort_by (le : α → α → Bool) (x : α) : List α → List α
  | [] => [x]
  | y :: ys => if le x y then x :: y :: ys else y :: insort_by le x ys

/-- Stable sort by the boolean relation `le` (insertion sort; models
Python's stable `sorted` / `list.sort`). -/
def sort_by (le : α → α → Bool) (l : List α) : List α :=
  l.foldr (insort_by le) []

/-- Lexicographic comparison of character lists by code point; Python's
string ordering (kept structural so that concrete instances reduce). -/
def chars_le : List Char → List Char → Bool
  | [], _ => true
  | _ :: _, [] => false
  | a :: as, b :: bs => if a = b then chars_le as bs else decide (a < b)

/-- Embeds Python's `<=` on strings: lexicographic by code point. -/
def py_str_le (a b : String) : Bool :=
  chars_le a.data b.data

/-- Embeds Python's `sorted` on a list of strings. -/
def sort_strings (l : List String) : List String :=
  sort_by py_str_le l

/-- Embeds `file_to_errors.setdefault(path, []).append(error_class)` on an
insertion-ordered dict modelled as an association list: the first entry with
the given key gets the value appended, a missing key is added at the end. -/
def assoc_append (key value : String) : List (String × List String) → List (String × List String)
  | [] => [(key, [value])]
  | e :: rest =>
      if e.1 = key then (e.1, e.2 ++ [value]) :: rest else e :: assoc_append key value rest

/-- Embeds the first loop of `_detect_file_hotspots`: the map from a file
path to the list of error classes proposing a change to it, built by
iterating the analyses and each analysis's `file_changes` in order. -/
def file_to_errors (analyses : List ErrorAnalysisResult) : List (String × List String) :=
  analyses.foldl
    (fun acc result =>
      result.analysis.file_changes.foldl
        (fun acc fc => assoc_append fc.path result.error.error_class acc)
        acc)
    []

/-- Embeds `str(PurePosixPath(file_path).parent)` for the already-normalized
relative paths produced by the analyses: everything before the last `/`, or
`"."` when the path has no directory component.  (The `PurePosixPath`
normalization of duplicated slashes is not modelled.) -/
def posix_parent (path : String) : String :=
  let comps := py_split path (fun c => c = '/')
  if comps.length ≤ 1 then "." else String.intercalate "/" (comps.dropLast)

/-- Embeds the `DetectedPattern` built for one hotspot entry. -/
def hotspot_pattern (file_path : String) (error_classes : List String) : DetectedPattern :=
  let unique_classes := sort_strings error_classes.dedup
  let parent := posix_parent file_path
  let k := error_classes.length
  let joined := String.intercalate ", " unique_classes
  { title := "Hotspot: " ++ file_path
    description := s!"`{file_path}` is targeted by {k} separate fix proposals. Error classes: {joined}"
    error_classes := unique_classes
    modules := if parent ≠ "." then [parent] else []
    occurrences := error_classes.length
    suggestion := s!"Consider a comprehensive review of `{file_path}` — multiple errors point here."
    pattern_type := "systemic_issue" }

/-- Embeds `_detect_file_hotspots(analyses, min_size)`: one `systemic_issue`
pattern per file whose accumulated error-class list has length ≥ `min_size`. -/
def detect_file_hotspots (analyses : List ErrorAnalysisResult) (min_size : Nat) :
    List DetectedPattern :=
  (file_to_errors analyses).filterMap fun e =>
    if min_size ≤ e.2.length then some (hotspot_pattern e.1 e.2) else none

/-- Follows the claim's words, for comparison with the source's detector:
the number of distinct error classes among the analyses proposing a change
to the given path. -/
def claim_distinct_classes (analyses : List ErrorAnalysisResult) (path : String) : Nat :=
  (((analyses.filter fun r => r.analysis.file_changes.any fun fc => fc.path = path).map
      fun r => r.error.error_class).dedup).length

/-- The error classes of all file-change proposals targeting `path`, with
multiplicity, in program order; this is what the source actually counts. -/
def hotspot_proposals (analyses : List ErrorAnalysisResult) (path : String) : List String :=
  (analyses.map fun r =>
    r.analysis.file_changes.filterMap fun fc =>
      if fc.path = path then some r.error.error_class else none).flatten

/-- The `(path, error_class)` pairs visited by the nested loops of
`_detect_file_hotspots`, flattened in program order. -/
def path_class_pairs (analyses : List ErrorAnalysisResult) : List (String × String) :=
  (analyses.map fun r =>
    r.analysis.file_changes.map fun fc => (fc.path, r.error.error_class)).flatten

/-- The first entry of the association list with the given key. -/
def entry_find (l : List (String × List String)) (p : String) : Option (String × List String) :=
  l.find? fun e => e.1 = p

/-! ## Knowledge store (`nightwatch/knowledge.py`)

The store under `<kb_dir>/errors/` is modelled as a list of documents in
write order; globbing sorts by filename.  A document's YAML frontmatter is
kept structured (the round trip through `_render_frontmatter` /
`_parse_frontmatter` is modelled as the identity on the field record), and
paths are kept relative to the knowledge root (`errors/<filename>`). -/

/-- Embeds one knowledge document under `errors/`: its filename and the
frontmatter fields written by `compound_result` that `rebuild_index` and
`search_prior_knowledge` read back, plus the Markdown body. -/
structure KnowledgeDoc where
  filename : String
  error_class : String
  transaction : String
  message : String
  root_cause : String
  fix_confidence : String
  has_fix : Bool
  tags : List String
  first_detected : String
  body : String
deriving DecidableEq, Repr

/-- Embeds one entry of the `solutions` array of `index.yml`. -/
structure IndexEntry where
  file : String
  error_class : String
  transaction : String
  fix_confidence : String
  has_fix : Bool
  tags : List String
deriving DecidableEq, Repr

/-- Embeds `PriorAnalysis`: a prior analysis retrieved from the knowledge base. -/
structure PriorAnalysis where
  error_class : String
  transaction : String
  root_cause : String
  fix_confidence : String
  has_fix : Bool
  summary : String
  match_score : ℚ
  source_file : String
  first_detected : String
deriving DecidableEq, Repr

/-- Embeds the noise-word set of `_extract_tags`. -/
def noise_tags : List String :=
  ["controller", "action", "othertransaction", "rake", "n/a", ""]

/-- Embeds `_extract_tags(error)`: split the error class on `:` `.` `/` and
the transaction on `/`, strip and lowercase each part, and drop the noise
words.  The Python set is modelled as a deduplicated list (downstream code
consumes only membership, intersection cardinality, and the sorted list). -/
def extract_tags (error : ErrorGroup) : List String :=
  let parts := py_split error.error_class (fun c => c = ':' ∨ c = '.' ∨ c = '/')
      ++ py_split error.transaction (fun c => c = '/')
  ((parts.map fun p => py_lower (py_strip p)).dedup).filter fun t => ¬ noise_tags.contains t

/-- Embeds `_match_score(error, solution, error_tags)`: 0.5 for an exact
error-class match, 0.3 for an exact transaction match, 0.1 per overlapping
tag, capped at 1.0. -/
def match_score (error : ErrorGroup) (solution : IndexEntry) (error_tags : List String) : ℚ :=
  let overlap := (error_tags.filter fun t => solution.tags.contains t).length
  let score : ℚ :=
    (if error.error_class = solution.error_class then 1/2 else 0)
    + (if error.transaction = solution.transaction then 3/10 else 0)
    + (overlap : ℚ) * (1/10)
  py_min score 1

/-- Collapses each run of `-` produced by the character substitution of
`_slugify` to a single `-` (the `+` of the regex `[^a-z0-9]+`). -/
def collapse_dashes : List Char → List Char
  | [] => []
  | c :: cs =>
      let rest := collapse_dashes cs
      if c = '-' then
        match rest with
        | '-' :: _ => rest
        | _ => c :: rest
      else c :: rest

/-- Embeds `_slugify(text)`: lowercase, each run of characters outside
`[a-z0-9]` becomes one hyphen, hyphens are stripped from both ends, and the
result is truncated to 60 characters. -/
def slugify (text : String) : String :=
  let dashed := (py_lower text).data.map fun c =>
    if ('a' ≤ c ∧ c ≤ 'z') ∨ ('0' ≤ c ∧ c ≤ '9') then c else '-'
  let stripped :=
    (((collapse_dashes dashed).dropWhile (· = '-')).reverse.dropWhile (· = '-')).reverse
  String.mk (stripped.take 60)

/-- Embeds the Markdown body composed by `compound_result`:
Title / Root Cause / Analysis, then optional Next Steps and File Changes. -/
def compose_body (a : Analysis) : String :=
  let body_parts := [s!"# {a.title}", "", "## Root Cause", "", a.root_cause, "",
      "## Analysis", "", a.reasoning, ""]
  let body_parts :=
    if a.suggested_next_steps ≠ [] then
      body_parts ++ ["## Next Steps", ""]
        ++ (a.suggested_next_steps.map fun step => s!"- {step}") ++ [""]
    else body_parts
  let body_parts :=
    if a.file_changes ≠ [] then
      body_parts ++ ["## File Changes", ""]
        ++ (a.file_changes.map fun fc => s!"- `{fc.path}`: {fc.action} — {fc.description}")
        ++ [""]
    else body_parts
  String.intercalate "\n" body_parts

/-- Embeds `doc_path.write_text(content)` on the modelled store: an existing
file with the same name is overwritten, a new one is appended in write order. -/
def write_doc (store : List KnowledgeDoc) (doc : KnowledgeDoc) : List KnowledgeDoc :=
  if store.any (fun d => d.filename = doc.filename) then
    store.map fun d => if d.filename = doc.filename then doc else d
  else
    store ++ [doc]

/-- Embeds `compound_result(result)`: build the document (filename
`<date>_<slug>.md`, frontmatter from the error and the analysis, tags
sorted, body from `compose_body`) and write it under `errors/`.  Returns the
written document together with the updated store; `date_str` is the formatted
`datetime.now(UTC)`. -/
def compound_result (date_str : String) (result : ErrorAnalysisResult)
    (store : List KnowledgeDoc) : KnowledgeDoc × List KnowledgeDoc :=
  let slug := slugify (result.error.error_class ++ "_" ++ result.error.transaction)
  let doc : KnowledgeDoc :=
    { filename := date_str ++ "_" ++ slug ++ ".md"
      error_class := result.error.error_class
      transaction := result.error.transaction
      message := py_take result.error.message 300
      root_cause := result.analysis.root_cause
      fix_confidence := confidence_to_str result.analysis.confidence
      has_fix := result.analysis.has_fix
      tags := sort_strings (extract_tags result.error)
      first_detected := date_str
      body := compose_body result.analysis }
  (doc, write_doc store doc)

/-- Embeds the scan of `errors/` by `rebuild_index`: documents are globbed
in filename order and projected to `solutions` index entries. -/
def rebuild_index (store : List KnowledgeDoc) : List IndexEntry :=
  (sort_by (fun a b => py_str_le a.filename b.filename) store).map fun d =>
    { file := "errors/" ++ d.filename
      error_class := d.error_class
      transaction := d.transaction
      fix_confidence := d.fix_confidence
      has_fix := d.has_fix
      tags := d.tags }

/-- Embeds `search_prior_knowledge(error, max_results)` against a loaded
index and the document store: score every entry, keep strictly positive
scores, stable-sort descending by score, take the top `max_results`, and
read each of those documents back into a `PriorAnalysis` (entries whose
document is missing are skipped). -/
def search_prior_knowledge (error : ErrorGroup) (max_results : Nat)
    (index : List IndexEntry) (store : List KnowledgeDoc) : List PriorAnalysis :=
  if index = [] then []
  else
    let error_tags := extract_tags error
    let scored := index.filterMap fun entry =>
      let score := match_score error entry error_tags
      if 0 < score then some (score, entry) else none
    let ranked := sort_by (fun a b => decide (b.1 ≤ a.1)) scored
    let top := ranked.take max_results
    top.filterMap fun se =>
      match store.find? (fun d => "errors/" ++ d.filename = se.2.file) with
      | none => none
      | some d => some
          { error_class := d.error_class
            transaction := d.transaction
            root_cause := d.root_cause
            fix_confidence := d.fix_confidence
            has_fix := d.has_fix
            summary := py_take d.body 500
            match_score := se.1
            source_file := "errors/" ++ d.filename
            first_detected := d.first_detected }

/-! ## Pipeline state manager
(`nightwatch/orchestration/state_manager.py` and
`nightwatch/types/orchestration.py`) -/

/-- Embeds `ExecutionPhase(StrEnum)`. -/
inductive ExecutionPhase where
  | ingestion
  | enrichment
  | analysis
  | synthesis
  | reporting
  | action
  | learning
  | complete
deriving DecidableEq, Repr

/-- Embeds the frozen `PipelineTimestamps` model; wall-clock instants are
modelled as integers. -/
structure PipelineTimestamps where
  started : ℤ
  phase_started : Option ℤ := none
  last_updated : Option ℤ := none
  completed : Option ℤ := none
deriving DecidableEq, Repr

/-- Embeds the frozen `PipelineState` snapshot; the `Any`-typed payloads
(`agent_results`, `errors_data`, `analyses_data`, `metadata`) are opaque
values of a type parameter `α`. -/
structure PipelineState (α : Type) where
  session_id : String
  current_phase : ExecutionPhase := .ingestion
  iteration_count : Nat := 0
  agent_results : List (String × α) := []
  timestamps : PipelineTimestamps
  errors_data : List α := []
  analyses_data : List α := []
  metadata : List (String × α) := []
deriving DecidableEq, Repr

/-- Embeds the keyword dict `**updates` accepted by `update_state`: for each
state field, either absent or a replacement value. -/
structure StateUpdates (α : Type) where
  session_id : Option String := none
  current_phase : Option ExecutionPhase := none
  iteration_count : Option Nat := none
  agent_results : Option (List (String × α)) := none
  timestamps : Option PipelineTimestamps := none
  errors_data : Option (List α) := none
  analyses_data : Option (List α) := none
  metadata : Option (List (String × α)) := none
deriving DecidableEq, Repr

/-- Embeds `current.model_copy(update=updates)` on the frozen snapshot:
named fields are replaced, the rest are carried over. -/
def model_copy (state : PipelineState α) (updates : StateUpdates α) : PipelineState α :=
  { session_id := updates.session_id.getD state.session_id
    current_phase := updates.current_phase.getD state.current_phase
    iteration_count := updates.iteration_count.getD state.iteration_count
    agent_results := updates.agent_results.getD state.agent_results
    timestamps := updates.timestamps.getD state.timestamps
    errors_data := updates.errors_data.getD state.errors_data
    analyses_data := updates.analyses_data.getD state.analyses_data
    metadata := updates.metadata.getD state.metadata }

/-- Embeds `StateManager.update_state(session_id, **updates)` acting on the
session's current snapshot: when `updates` does not name `timestamps`, the
current timestamps with `last_updated` replaced by the clock reading `now`
are injected into the updates; then the snapshot is copied with the updates
applied. -/
def update_state (now : ℤ) (current : PipelineState α) (updates : StateUpdates α) :
    PipelineState α :=
  let updates :=
    if updates.timestamps.isNone then
      { updates with timestamps := some { current.timestamps with last_updated := some now } }
    else updates
  model_copy current updates

/-! ## Concrete fixtures used by counterexamples and witnesses -/

/-- Fixture: a minimal error group. -/
def err_x : ErrorGroup :=
  { error_class := "X", transaction := "T", message := "m", occurrences := 1, last_seen := "0" }

/-- Fixture: empty trace data. -/
def traces0 : TraceData := {}

/-- Fixture: a minimal low-confidence analysis. -/
def analysis0 : Analysis :=
  { title := "t", reasoning := "r", root_cause := "c", has_fix := false, confidence := .low }

/-- Fixture: a high-confidence analysis with a fix. -/
def analysis_high : Analysis :=
  { title := "t2", reasoning := "r2", root_cause := "deep cause", has_fix := true,
    confidence := .high }

/-- Fixture: a tool-use LLM response charging the given number of tokens. -/
def tool_resp (tokens : Nat) : LoopResp :=
  { is_tool_use := true, tokens := tokens, analysis := analysis0,
    assistant_msg := { role := "assistant", content := .blocks [] },
    tool_results_msg := { role := "user", content := .str "res" } }

/-- Fixture: the initial user message of a pass. -/
def msg0 : Msg := { role := "user", content := .str "p" }

/-- Fixture run: token budget 5, every call a tool use charging 6 tokens, so
the loop breaks on the budget check at the top of iteration 2 with 10 - 2
iterations still allowed. -/
def run_budget_exhausted : ErrorAnalysisResult :=
  single_pass_run err_x traces0 10 5 (fun _ => tool_resp 6) msg0

/-- Fixture run: one allowed iteration and a huge budget, so the loop runs
out of iterations. -/
def run_iteration_exhausted : ErrorAnalysisResult :=
  single_pass_run err_x traces0 1 1000 (fun _ => tool_resp 0) msg0

/-- Fixture: multi-pass enabled with two passes allowed. -/
def mp_settings : MultiPassSettings := { multi_pass_enabled := true, max_passes := 2 }

/-- Fixture: a completed low-confidence pass. -/
def pass1_fix : ErrorAnalysisResult :=
  { error := err_x, analysis := analysis0, traces := traces0,
    iterations := 3, tokens_used := 100, api_calls := 4 }

/-- Fixture: a completed high-confidence pass. -/
def pass2_fix : ErrorAnalysisResult :=
  { error := err_x, analysis := analysis_high, traces := traces0,
    iterations := 5, tokens_used := 200, api_calls := 6 }

/-- Fixture: a file change targeting `app/x.rb`. -/
def fc_x : FileChange := { path := "app/x.rb", action := "modify" }

/-- Fixture: an analysis result of error class `E` proposing one change to
`app/x.rb`. -/
def result_e : ErrorAnalysisResult :=
  { error := { err_x with error_class := "E" },
    analysis := { analysis0 with file_changes := [fc_x] },
    traces := traces0 }

/-- Fixture: a 7-message conversation. -/
def msgs7 : List Msg := List.replicate 7 msg0

/-- Fixture: a 6-message conversation. -/
def msgs6 : List Msg := List.replicate 6 msg0

/-- Fixture: a 9-message conversation. -/
def msgs9 : List Msg := List.replicate 9 msg0

/-- Fixture: timestamps whose `last_updated` is the instant 10. -/
def ts_old : PipelineTimestamps := { started := 0, last_updated := some 10 }

/-- Fixture: a pipeline state snapshot carrying `ts_old`. -/
def state_old : PipelineState Nat := { session_id := "s", timestamps := ts_old }

/-- Fixture: updates naming only `timestamps`, moving `last_updated` back to 5. -/
def upd_back : StateUpdates Nat :=
  { timestamps := some { started := 0, last_updated := some 5 } }

/-- Fixture: empty updates (no field named). -/
def upd_none : StateUpdates Nat := {}

/-- Fixture: an error group whose class and transaction are single letters
(tags `["e", "t"]`, slug `e-t`). -/
def err_et : ErrorGroup :=
  { error_class := "e", transaction := "t", message := "m", occurrences := 1, last_seen := "0" }

/-- Fixture: an analysis result for `err_et`. -/
def result_et : ErrorAnalysisResult :=
  { error := err_et, analysis := analysis0, traces := traces0 }

/-- Fixture: a pre-existing knowledge document for the same error class and
transaction as `err_et`, written on an earlier date `d`. -/
def blocker_doc (d : String) : KnowledgeDoc :=
  { filename := d ++ "_e-t.md", error_class := "e", transaction := "t", message := "m",
    root_cause := "other", fix_confidence := "low", has_fix := false,
    tags := ["e", "t"], first_detected := d, body := "b" }

/-- Fixture: a store already holding three older documents for the same
error, whose filenames sort before the day-4 write. -/
def blocker_store : List KnowledgeDoc :=
  [blocker_doc "1", blocker_doc "2", blocker_doc "3"]

/-! ## Helper lemmas -/

theorem py_min_eq_min (a b : ℚ) : py_min a b = min a b := by
  unfold py_min
  split_ifs with h
  · exact (min_eq_left h).symm
  · exact (min_eq_right (le_of_not_le h)).symm

theorem py_max_eq_max (a b : ℚ) : py_max a b = max a b := by
  unfold py_max
  split_ifs with h
  · exact (max_eq_left h).symm
  · exact (max_eq_right (le_of_not_le h)).symm

theorem py_min_le_right (a b : ℚ) : py_min a b ≤ b := by
  unfold py_min
  split_ifs with h
  · exact h
  · exact le_refl b

theorem py_int_mono {a b : ℚ} (h : a ≤ b) : py_int a ≤ py_int b := by
  unfold py_int
  by_cases ha : 0 ≤ a
  · rw [if_pos ha, if_pos (le_trans ha h)]
    exact Int.floor_le_floor h
  · rw [if_neg ha]
    by_cases hb : 0 ≤ b
    · rw [if_pos hb]
      have h1 : ⌈a⌉ ≤ 0 := Int.ceil_le.mpr (by simpa using le_of_not_le ha)
      have h2 : 0 ≤ ⌊b⌋ := Int.le_floor.mpr (by simpa using hb)
      omega
    · rw [if_neg hb]
      exact Int.ceil_le_ceil h

theorem py_max_int_mono (a : ℤ) {b b' : ℤ} (h : b ≤ b') : py_max_int a b ≤ py_max_int a b' := by
  unfold py_max_int
  split_ifs <;> omega

/-! ## C7 — budget monotonicity -/

/-- C7: `_calculate_max_iterations` is monotonically non-decreasing in the
settings ceiling, and for a fixed error class and `max_iterations` value
`_calculate_thinking_budget` is monotonically non-increasing in the
iteration number on the region `i > 2`. -/
theorem budget_monotonicity :
    (∀ (error_class : String) (c1 c2 : Nat), c1 ≤ c2 →
      calculate_max_iterations error_class c1 ≤ calculate_max_iterations error_class c2)
    ∧ (∀ (error_class : String) (m i1 i2 : Nat), 2 < i1 → i1 ≤ i2 →
      calculate_thinking_budget i2 m error_class ≤ calculate_thinking_budget i1 m error_class) := by
  constructor
  · intro ec c1 c2 h
    unfold calculate_max_iterations
    dsimp only
    split_ifs <;> omega
  · intro ec m i1 i2 h2 h12
    unfold calculate_thinking_budget
    dsimp only
    by_cases hm : m ≤ 2
    · rw [if_pos (Or.inr hm), if_pos (Or.inr hm)]
    · have g1 : ¬ (i1 ≤ 2 ∨ m ≤ 2) := by omega
      have g2 : ¬ (i2 ≤ 2 ∨ m ≤ 2) := by omega
      rw [if_neg g1, if_neg g2]
      apply py_max_int_mono
      apply py_int_mono
      have hd : (0:ℚ) < (m : ℚ) - 2 := by
        have : (3:ℚ) ≤ (m:ℚ) := by exact_mod_cast (by omega : 3 ≤ m)
        linarith
      have hc : ((i1 : ℚ) - 2) ≤ ((i2 : ℚ) - 2) := by
        have : (i1:ℚ) ≤ (i2:ℚ) := by exact_mod_cast h12
        linarith
      have h3 : ((i1 : ℚ) - 2) / ((m : ℚ) - 2) ≤ ((i2 : ℚ) - 2) / ((m : ℚ) - 2) :=
        (div_le_div_iff_of_pos_right hd).mpr hc
      have hscale : 1 - (3/4 : ℚ) * (((i2 : ℚ) - 2) / ((m : ℚ) - 2))
          ≤ 1 - (3/4) * (((i1 : ℚ) - 2) / ((m : ℚ) - 2)) := by linarith
      have hbase : (0:ℤ) ≤ (if any_pattern simple_errors (lowered_class ec) then (4000:ℤ)
          else if any_pattern complex_errors (lowered_class ec) then 12000 else 8000) := by
        split_ifs <;> norm_num
      exact mul_le_mul_of_nonneg_left hscale (by exact_mod_cast hbase)

/-- Witness for C7 at a concrete error class, ceilings 5 ≤ 9 and
iterations 3 ≤ 4 with `max_iterations = 10`. -/
theorem budget_monotonicity_witness :
    calculate_max_iterations "SomeError" 5 ≤ calculate_max_iterations "SomeError" 9
    ∧ calculate_thinking_budget 4 10 "SomeError" ≤ calculate_thinking_budget 3 10 "SomeError" :=
  ⟨budget_monotonicity.1 "SomeError" 5 9 (by decide),
   budget_monotonicity.2 "SomeError" 10 3 4 (by decide) (by decide)⟩

/-! ## C8 — accumulation across the two passes -/

/-- C8: when `analyze_error` runs a second pass (multi-pass enabled, pass-1
confidence low, `max_passes > 1`), the returned result's `tokens_used`,
`api_calls` and `iterations` are the sums of the two passes' values and its
`pass_count` is 2. -/
theorem multi_pass_accumulation (settings : MultiPassSettings)
    (pass1 pass2 : ErrorAnalysisResult)
    (henabled : settings.multi_pass_enabled = true)
    (hlow : pass1.analysis.confidence = Confidence.low)
    (hpasses : 1 < settings.max_passes) :
    (analyze_error_multi_pass settings pass1 pass2).tokens_used
        = pass1.tokens_used + pass2.tokens_used
    ∧ (analyze_error_multi_pass settings pass1 pass2).api_calls
        = pass1.api_calls + pass2.api_calls
    ∧ (analyze_error_multi_pass settings pass1 pass2).iterations
        = pass1.iterations + pass2.iterations
    ∧ (analyze_error_multi_pass settings pass1 pass2).pass_count = 2 := by
  unfold analyze_error_multi_pass
  rw [if_pos ⟨by simp [henabled], hlow, hpasses⟩]
  dsimp only
  split_ifs <;> exact ⟨Nat.add_comm _ _, Nat.add_comm _ _, Nat.add_comm _ _, rfl⟩

/-- Witness for C8 on concrete passes (100+200 tokens, 4+6 calls, 3+5
iterations). -/
theorem multi_pass_accumulation_witness :
    (analyze_error_multi_pass mp_settings pass1_fix pass2_fix).tokens_used
        = pass1_fix.tokens_used + pass2_fix.tokens_used
    ∧ (analyze_error_multi_pass mp_settings pass1_fix pass2_fix).api_calls
        = pass1_fix.api_calls + pass2_fix.api_calls
    ∧ (analyze_error_multi_pass mp_settings pass1_fix pass2_fix).iterations
        = pass1_fix.iterations + pass2_fix.iterations
    ∧ (analyze_error_multi_pass mp_settings pass1_fix pass2_fix).pass_count = 2 :=
  multi_pass_accumulation mp_settings pass1_fix pass2_fix (by decide) (by decide) (by decide)

/-! ## C10 — the confidence-restore guard is unreachable -/

/-- C10: a second pass only runs when pass 1's confidence is low, the rank
minimum, so the guard restoring pass 1's `Analysis` (pass 2's rank strictly
below pass 1's) can never fire, and the returned result's `Analysis` is
always pass 2's. -/
theorem multi_pass_guard_unreachable (settings : MultiPassSettings)
    (pass1 pass2 : ErrorAnalysisResult)
    (henabled : settings.multi_pass_enabled = true)
    (hlow : pass1.analysis.confidence = Confidence.low)
    (hpasses : 1 < settings.max_passes) :
    ¬ (confidence_rank pass2.analysis.confidence < confidence_rank pass1.analysis.confidence)
    ∧ (analyze_error_multi_pass settings pass1 pass2).analysis = pass2.analysis := by
  have hrank : confidence_rank pass1.analysis.confidence = 0 := by rw [hlow]; decide
  have hguard : ¬ (confidence_rank pass2.analysis.confidence
      < confidence_rank pass1.analysis.confidence) := by
    rw [hrank]; exact Nat.not_lt_zero _
  refine ⟨hguard, ?_⟩
  unfold analyze_error_multi_pass
  rw [if_pos ⟨by simp [henabled], hlow, hpasses⟩]
  dsimp only
  rw [if_neg hguard]

/-- Witness for C10 on the concrete passes: the result carries pass 2's
high-confidence analysis. -/
theorem multi_pass_guard_unreachable_witness :
    ¬ (confidence_rank pass2_fix.analysis.confidence
        < confidence_rank pass1_fix.analysis.confidence)
    ∧ (analyze_error_multi_pass mp_settings pass1_fix pass2_fix).analysis
        = pass2_fix.analysis :=
  multi_pass_guard_unreachable mp_settings pass1_fix pass2_fix (by decide) (by decide) (by decide)

/-! ## C4 — rate-limit backoff wait bound -/

/-- C4 counterexample: at 0-based attempt 3 with jitter 5 (an admissible
draw of `random.uniform(1, 5)`), the computed wait is 125 s, exceeding the
claimed 120 s bound: the 120 s cap is applied before the jitter is added. -/
theorem rate_limit_delay_counterexample :
    (1:ℚ) ≤ 5 ∧ (5:ℚ) ≤ 5 ∧ rate_limit_delay none 15 3 5 = 125
      ∧ ¬ (rate_limit_delay none 15 3 5 ≤ 120) := by
  refine ⟨by norm_num, by norm_num, ?_, ?_⟩
  · show py_min (15 * 2 ^ 3) 120 + 5 = 125
    norm_num [py_min]
  · show ¬ (py_min (15 * 2 ^ 3) 120 + 5 ≤ 120)
    norm_num [py_min]

/-- C4 amended: without a retry-after hint the exponential component of the
wait is capped at 120 s, and the whole wait (cap plus jitter in [1, 5]) is
at most 125 s, for every base delay, attempt number and jitter draw. -/
theorem rate_limit_delay_bound (base_delay : ℚ) (attempt : Nat) (jitter : ℚ)
    (h1 : 1 ≤ jitter) (h5 : jitter ≤ 5) :
    py_min (base_delay * 2 ^ attempt) 120 ≤ 120
    ∧ rate_limit_delay none base_delay attempt jitter ≤ 125 := by
  refine ⟨py_min_le_right _ _, ?_⟩
  show py_min (base_delay * 2 ^ attempt) 120 + jitter ≤ 125
  have := py_min_le_right (base_delay * 2 ^ attempt) 120
  linarith

/-- Witness for C4 amended at base 15, attempt 3, jitter 5. -/
theorem rate_limit_delay_bound_witness :
    py_min ((15:ℚ) * 2 ^ 3) 120 ≤ 120 ∧ rate_limit_delay none 15 3 5 ≤ 125 :=
  rate_limit_delay_bound 15 3 5 (by norm_num) (by norm_num)

/-! ## C1 — post-pass quality score (modelled from the spec) -/

/-- C1: the post-pass quality score equals `0.5·conf(confidence)` plus 0.20
for a fix (0.10 when the fix has no file changes) plus 0.15 for a
substantive root cause (length > 20 and not "Unknown") plus 0.10 for long
reasoning (length > 200) plus `0.05·min(1, next_steps/3)`, clamped to
`[0, 1]`; `conf` maps high→0.9, medium→0.6, low→0.3.  (The evaluator is
modelled from the spec; see `evaluate_analysis_quality`.) -/
theorem quality_score_formula (r : ErrorAnalysisResult) :
    0 ≤ evaluate_analysis_quality r ∧ evaluate_analysis_quality r ≤ 1 ∧
    evaluate_analysis_quality r
      = min 1 ((1/2) * confidence_to_float r.analysis.confidence
          + (if r.analysis.has_fix then (if r.analysis.file_changes = [] then 1/10 else 2/10) else 0)
          + (if 20 < r.analysis.root_cause.length ∧ r.analysis.root_cause ≠ "Unknown" then 3/20 else 0)
          + (if 200 < r.analysis.reasoning.length then 1/10 else 0)
          + (1/20) * min 1 ((r.analysis.suggested_next_steps.length : ℚ) / 3))
    ∧ confidence_to_float .high = 9/10
    ∧ confidence_to_float .medium = 6/10
    ∧ confidence_to_float .low = 3/10 := by
  have hconf : 0 ≤ confidence_to_float r.analysis.confidence := by
    cases r.analysis.confidence
    · rw [show confidence_to_float .high = 9/10 from rfl]; norm_num
    · rw [show confidence_to_float .medium = 6/10 from rfl]; norm_num
    · rw [show confidence_to_float .low = 3/10 from rfl]; norm_num
  have hS : (0:ℚ) ≤ (1/2) * confidence_to_float r.analysis.confidence
      + (if r.analysis.has_fix then (if r.analysis.file_changes = [] then 1/10 else 2/10) else 0)
      + (if 20 < r.analysis.root_cause.length ∧ r.analysis.root_cause ≠ "Unknown" then 3/20 else 0)
      + (if 200 < r.analysis.reasoning.length then 1/10 else 0)
      + (1/20) * min 1 ((r.analysis.suggested_next_steps.length : ℚ) / 3) := by
    have h5 : (0:ℚ) ≤ (1/20) * min 1 ((r.analysis.suggested_next_steps.length : ℚ) / 3) := by
      apply mul_nonneg (by norm_num)
      exact le_min (by norm_num) (by positivity)
    have h1 : (0:ℚ) ≤ (1/2) * confidence_to_float r.analysis.confidence := by linarith
    repeat' apply add_nonneg
    all_goals first
      | exact h1
      | exact h5
      | (split_ifs <;> norm_num)
  have hq : evaluate_analysis_quality r
      = min 1 ((1/2) * confidence_to_float r.analysis.confidence
          + (if r.analysis.has_fix then (if r.analysis.file_changes = [] then 1/10 else 2/10) else 0)
          + (if 20 < r.analysis.root_cause.length ∧ r.analysis.root_cause ≠ "Unknown" then 3/20 else 0)
          + (if 200 < r.analysis.reasoning.length then 1/10 else 0)
          + (1/20) * min 1 ((r.analysis.suggested_next_steps.length : ℚ) / 3)) := by
    unfold evaluate_analysis_quality
    dsimp only
    simp only [py_min_eq_min, py_max_eq_max]
    rw [max_eq_right hS]
  refine ⟨?_, ?_, hq, rfl, rfl, rfl⟩
  · rw [hq]; exact le_min (by norm_num) hS
  · rw [hq]; exact min_le_left _ _

/-! ## C6 — conversation compression boundary -/

/-- C6 counterexample: in the loop, a 7-message conversation is not
compressed even after iteration 7 > 6, because the in-loop trigger requires
strictly more than 8 messages; the conversation stays at 7 messages instead
of the claimed 6. -/
theorem compression_counterexample :
    6 < 7 ∧ msgs7.length = 7
    ∧ loop_compress_step 7 msgs7 = msgs7
    ∧ ¬ ((loop_compress_step 7 msgs7).length = 6) := by
  decide

/-- C6 amended: a 6-message conversation is never compressed (neither by
the in-loop trigger nor by `_compress_conversation` itself), and after an
iteration `i > 6` a conversation of more than 8 messages is compressed to
exactly 6 messages: the first message, one synthetic user summary message,
and the last four. -/
theorem compression_boundary :
    (∀ (i : Nat) (msgs : List Msg), msgs.length = 6 →
      loop_compress_step i msgs = msgs ∧ compress_conversation msgs = msgs)
    ∧ (∀ (i : Nat) (msgs : List Msg), 6 < i → 8 < msgs.length →
      loop_compress_step i msgs
          = msgs.take 1
            ++ [{ role := "user",
                  content := .str (compress_summary ((msgs.drop 1).take (msgs.length - 5))) }]
            ++ msgs.drop (msgs.length - 4)
      ∧ (loop_compress_step i msgs).length = 6) := by
  constructor
  · intro i msgs h
    constructor
    · unfold loop_compress_step
      rw [if_neg (by omega)]
    · unfold compress_conversation
      rw [if_pos (by omega)]
  · intro i msgs hi hlen
    have hstep : loop_compress_step i msgs = compress_conversation msgs := by
      unfold loop_compress_step
      rw [if_pos ⟨hi, hlen⟩]
    have hcomp : compress_conversation msgs
        = msgs.take 1
          ++ [{ role := "user",
                content := .str (compress_summary ((msgs.drop 1).take (msgs.length - 5))) }]
          ++ msgs.drop (msgs.length - 4) := by
      unfold compress_conversation
      rw [if_neg (by omega)]
    refine ⟨hstep.trans hcomp, ?_⟩
    rw [hstep, hcomp]
    simp only [List.length_append, List.length_take, List.length_drop, List.length_cons,
      List.length_nil]
    omega

/-- Witness for C6 amended: the 6-message conversation is untouched at
iteration 9, and the 9-message conversation at iteration 7 compresses to 6. -/
theorem compression_boundary_witness :
    loop_compress_step 9 msgs6 = msgs6 ∧ (loop_compress_step 7 msgs9).length = 6 :=
  ⟨(compression_boundary.1 9 msgs6 (by decide)).1,
   (compression_boundary.2 7 msgs9 (by decide) (by decide)).2⟩

/-! ## C3 — token-budget exhaustion result -/

/-- C3 counterexample: a run that terminates because the token total
exceeded the budget (6 > 5, with 8 of 10 iterations still allowed) returns
an `ErrorAnalysisResult` whose `Analysis` is identical to that of a run that
terminated by exhausting its iteration allowance — its reasoning reads
"Analysis incomplete — hit iteration limit", so the result's content does
not indicate budget exhaustion as opposed to any other cause. -/
theorem budget_content_counterexample :
    run_budget_exhausted = exhausted_result err_x traces0 2 6 1
    ∧ 5 < run_budget_exhausted.tokens_used
    ∧ run_budget_exhausted.iterations < 10
    ∧ run_iteration_exhausted = exhausted_result err_x traces0 1 0 1
    ∧ run_budget_exhausted.analysis = run_iteration_exhausted.analysis := by
  decide

/-- C3 amended: whenever the running token total exceeds the per-error
token ceiling at the top of a loop iteration, the loop terminates and
returns a low-confidence, no-fix result — but its reasoning is the generic
"Analysis incomplete — hit iteration limit" text shared with iteration
exhaustion; only the log line mentions the budget. -/
theorem budget_break_result (error : ErrorGroup) (traces : TraceData)
    (token_budget : Nat) (resps : Nat → LoopResp) (fuel : Nat) (messages : List Msg)
    (iteration total_tokens api_calls : Nat)
    (h : token_budget < total_tokens) :
    single_pass_go error traces token_budget resps (fuel + 1) messages
        iteration total_tokens api_calls
      = exhausted_result error traces (iteration + 1) total_tokens api_calls
    ∧ (exhausted_result error traces (iteration + 1) total_tokens api_calls).analysis.confidence
        = Confidence.low
    ∧ (exhausted_result error traces (iteration + 1) total_tokens api_calls).analysis.has_fix
        = false
    ∧ (exhausted_result error traces (iteration + 1) total_tokens api_calls).analysis.reasoning
        = "Analysis incomplete — hit iteration limit"
    ∧ (exhausted_result error traces (iteration + 1) total_tokens api_calls).tokens_used
        = total_tokens := by
  refine ⟨?_, rfl, rfl, rfl, rfl⟩
  simp only [single_pass_go]
  rw [if_pos h]

/-- Witness for C3 amended: budget 5 already exceeded by 6 running tokens. -/
theorem budget_break_result_witness :
    single_pass_go err_x traces0 5 (fun _ => tool_resp 6) 9 [msg0] 1 6 1
      = exhausted_result err_x traces0 2 6 1
    ∧ (exhausted_result err_x traces0 2 6 1).analysis.confidence = Confidence.low
    ∧ (exhausted_result err_x traces0 2 6 1).analysis.has_fix = false
    ∧ (exhausted_result err_x traces0 2 6 1).analysis.reasoning
        = "Analysis incomplete — hit iteration limit"
    ∧ (exhausted_result err_x traces0 2 6 1).tokens_used = 6 := by
  have h := budget_break_result err_x traces0 5 (fun _ => tool_resp 6) 8 [msg0] 1 6 1 (by decide)
  exact h

/-! ## C9 — state-manager update frame -/

/-- C9 counterexample: `update_state` with an `updates` dict that names
`timestamps` takes the caller's value verbatim, so `last_updated` can move
backwards (from instant 10 to instant 5); the claimed monotonicity of
`timestamps.last_updated` fails. -/
theorem update_state_counterexample :
    state_old.timestamps.last_updated = some 10
    ∧ (update_state 99 state_old upd_back).timestamps.last_updated = some 5
    ∧ ¬ ((10:ℤ) ≤ 5) := by
  refine ⟨rfl, rfl, by decide⟩

/-- C9 amended: when `updates` does not name `timestamps`, `update_state`
sets `last_updated` to the clock reading `now` (so it is ≥ the old value
whenever the clock has not moved backwards), leaves the other timestamp
fields unchanged, and changes no state field that `updates` does not name;
when `updates` names `timestamps`, the caller's value is taken verbatim and
`last_updated` may decrease. -/
theorem update_state_frame {α : Type} (now : ℤ) (st : PipelineState α)
    (u : StateUpdates α) (hts : u.timestamps = none) :
    (update_state now st u).timestamps.last_updated = some now
    ∧ (update_state now st u).timestamps.started = st.timestamps.started
    ∧ (update_state now st u).timestamps.phase_started = st.timestamps.phase_started
    ∧ (update_state now st u).timestamps.completed = st.timestamps.completed
    ∧ (u.session_id = none → (update_state now st u).session_id = st.session_id)
    ∧ (u.current_phase = none → (update_state now st u).current_phase = st.current_phase)
    ∧ (u.iteration_count = none → (update_state now st u).iteration_count = st.iteration_count)
    ∧ (u.agent_results = none → (update_state now st u).agent_results = st.agent_results)
    ∧ (u.errors_data = none → (update_state now st u).errors_data = st.errors_data)
    ∧ (u.analyses_data = none → (update_state now st u).analyses_data = st.analyses_data)
    ∧ (u.metadata = none → (update_state now st u).metadata = st.metadata)
    ∧ (∀ t : ℤ, st.timestamps.last_updated = some t → t ≤ now →
        ∃ s : ℤ, (update_state now st u).timestamps.last_updated = some s ∧ t ≤ s) := by
  have hnone : u.timestamps.isNone = true := by rw [hts]; rfl
  unfold update_state model_copy
  rw [if_pos hnone]
  refine ⟨rfl, rfl, rfl, rfl, ?_, ?_, ?_, ?_, ?_, ?_, ?_, ?_⟩
  · intro h; simp [h]
  · intro h; simp [h]
  · intro h; simp [h]
  · intro h; simp [h]
  · intro h; simp [h]
  · intro h; simp [h]
  · intro h; simp [h]
  · intro t _ htle
    exact ⟨now, rfl, htle⟩

/-- Witness for C9 amended at clock instant 42 with empty updates. -/
theorem update_state_frame_witness :
    (update_state 42 state_old upd_none).timestamps.last_updated = some 42
    ∧ (update_state 42 state_old upd_none).session_id = state_old.session_id :=
  ⟨(update_state_frame 42 state_old upd_none rfl).1,
   (update_state_frame 42 state_old upd_none rfl).2.2.2.2.1 rfl⟩

/-! ## C5 — file-hotspot threshold

Association-list infrastructure: `file_to_errors` is the fold of
`assoc_append` over the flattened `(path, error_class)` pairs; the entry of
a path collects exactly the error classes of the proposals targeting it
(`hotspot_proposals`), with multiplicity, and keys are unique. -/

theorem entry_find_cons (e : String × List String) (l : List (String × List String)) (p : String) :
    entry_find (e :: l) p = if e.1 = p then some e else entry_find l p := by
  by_cases h : e.1 = p
  · rw [if_pos h]
    exact List.find?_cons_of_pos _ (by simpa using h)
  · rw [if_neg h]
    exact List.find?_cons_of_neg _ (by simpa using h)

theorem entry_find_assoc_append (l : List (String × List String)) (k v p : String) :
    entry_find (assoc_append k v l) p
      = match entry_find l p with
        | some e => some (if k = p then (e.1, e.2 ++ [v]) else e)
        | none => if k = p then some (k, [v]) else none := by
  induction l with
  | nil =>
      show entry_find [(k, [v])] p = _
      rw [entry_find_cons]
      by_cases hk : k = p
      · rw [if_pos hk, if_pos hk]
        rfl
      · rw [if_neg hk, if_neg hk]
        rfl
  | cons e rest ih =>
      by_cases he : e.1 = k
      · have hstep : assoc_append k v (e :: rest) = (e.1, e.2 ++ [v]) :: rest := by
          simp [assoc_append, he]
        rw [hstep, entry_find_cons, entry_find_cons]
        by_cases hp : e.1 = p
        · have hkp : k = p := by rw [← he, hp]
          simp [hp, hkp]
        · have hkp : ¬ k = p := fun h => hp (by rw [he, h])
          rw [if_neg hp, if_neg hp]
          cases hf : entry_find rest p with
          | none => simp [hkp]
          | some e' => simp [hkp]
      · have hstep : assoc_append k v (e :: rest) = e :: assoc_append k v rest := by
          simp [assoc_append, he]
        rw [hstep, entry_find_cons, entry_find_cons]
        by_cases hp : e.1 = p
        · have hkp : ¬ k = p := fun h => he (by rw [hp, h])
          simp [hp, hkp]
        · rw [if_neg hp, if_neg hp, ih]

theorem entry_find_foldl (prs : List (String × String)) (acc : List (String × List String))
    (p : String) :
    entry_find (prs.foldl (fun a pr => assoc_append pr.1 pr.2 a) acc) p
      = match entry_find acc p with
        | some e => some (e.1, e.2 ++ (prs.filter (fun pr => pr.1 = p)).map Prod.snd)
        | none =>
            if (prs.filter (fun pr => pr.1 = p)).map Prod.snd = [] then none
            else some (p, (prs.filter (fun pr => pr.1 = p)).map Prod.snd) := by
  induction prs generalizing acc with
  | nil =>
      cases hf : entry_find acc p with
      | none => simp [hf]
      | some e => simp [hf]
  | cons pr rest ih =>
      rw [List.foldl_cons, ih, entry_find_assoc_append]
      by_cases hpr : pr.1 = p
      · rw [List.filter_cons_of_pos (by simpa using hpr)]
        cases hf : entry_find acc p with
        | none => simp [hf, hpr]
        | some e => simp [hf, hpr]
      · rw [List.filter_cons_of_neg (by simpa using hpr)]
        cases hf : entry_find acc p with
        | none => simp [hf, hpr]
        | some e => simp [hf, hpr]

end NightWatch

namespace NightWatch

theorem file_to_errors_go (analyses : List ErrorAnalysisResult)
    (acc : List (String × List String)) :
    analyses.foldl
      (fun acc result =>
        result.analysis.file_changes.foldl
          (fun acc fc => assoc_append fc.path result.error.error_class acc) acc)
      acc
    = (path_class_pairs analyses).foldl (fun a pr => assoc_append pr.1 pr.2 a) acc := by
  induction analyses generalizing acc with
  | nil => rfl
  | cons r rest ih =>
      rw [List.foldl_cons, ih]
      simp only [path_class_pairs, List.map_cons, List.flatten_cons, List.foldl_append,
        List.foldl_map]

theorem file_to_errors_eq_foldl (analyses : List ErrorAnalysisResult) :
    file_to_errors analyses
      = (path_class_pairs analyses).foldl (fun a pr => assoc_append pr.1 pr.2 a) [] :=
  file_to_errors_go analyses []


theorem proposals_inner (fcs : List FileChange) (cls p : String) :
    ((fcs.map fun fc => (fc.path, cls)).filter (fun pr => pr.1 = p)).map Prod.snd
      = fcs.filterMap fun fc => if fc.path = p then some cls else none := by
  induction fcs with
  | nil => rfl
  | cons fc rest ih =>
      by_cases h : fc.path = p
      · simp [List.filter_cons, List.filterMap_cons, h, ih]
      · simp [List.filter_cons, List.filterMap_cons, h, ih]

theorem proposals_eq (analyses : List ErrorAnalysisResult) (p : String) :
    hotspot_proposals analyses p
      = ((path_class_pairs analyses).filter (fun pr => pr.1 = p)).map Prod.snd := by
  induction analyses with
  | nil => rfl
  | cons r rest ih =>
      simp only [hotspot_proposals, path_class_pairs, List.map_cons, List.flatten_cons,
        List.filter_append, List.map_append] at ih ⊢
      rw [proposals_inner, ih]

theorem keys_assoc_append (l : List (String × List String)) (k v : String) :
    (assoc_append k v l).map Prod.fst
      = if l.any (fun e => e.1 = k) then l.map Prod.fst else l.map Prod.fst ++ [k] := by
  induction l with
  | nil => simp [assoc_append]
  | cons e rest ih =>
      by_cases he : e.1 = k
      · simp [assoc_append, he]
      · simp only [assoc_append, if_neg he, List.map_cons, List.any_cons, ih]
        by_cases hr : rest.any (fun e => e.1 = k)
        · simp [he, hr]
        · simp [he, hr]

theorem keys_nodup_assoc_append (l : List (String × List String)) (k v : String)
    (h : (l.map Prod.fst).Nodup) : ((assoc_append k v l).map Prod.fst).Nodup := by
  rw [keys_assoc_append]
  split_ifs with hany
  · exact h
  · refine List.Nodup.append h (List.nodup_singleton k) ?_
    intro a ha hk
    rcases List.mem_singleton.mp hk with rfl
    rcases List.mem_map.mp ha with ⟨e, he, rfl⟩
    rw [List.any_eq_true] at hany
    exact hany ⟨e, he, by simp⟩

theorem keys_nodup_foldl (prs : List (String × String)) (acc : List (String × List String))
    (h : (acc.map Prod.fst).Nodup) :
    (((prs.foldl (fun a pr => assoc_append pr.1 pr.2 a) acc).map Prod.fst)).Nodup := by
  induction prs generalizing acc with
  | nil => exact h
  | cons pr rest ih =>
      rw [List.foldl_cons]
      exact ih _ (keys_nodup_assoc_append _ _ _ h)

theorem entry_find_of_mem (l : List (String × List String)) (e : String × List String)
    (p : String) (hnodup : (l.map Prod.fst).Nodup) (hmem : e ∈ l) (hp : e.1 = p) :
    entry_find l p = some e := by
  induction l with
  | nil => cases hmem
  | cons a rest ih =>
      rcases List.mem_cons.mp hmem with rfl | hmem'
      · rw [entry_find_cons, if_pos hp]
      · rw [List.map_cons] at hnodup
        obtain ⟨hnot, htail⟩ := List.nodup_cons.mp hnodup
        by_cases ha : a.1 = p
        · exfalso
          exact hnot (by
            rw [ha, ← hp]
            exact List.mem_map.mpr ⟨e, hmem', rfl⟩)
        · rw [entry_find_cons, if_neg ha]
          exact ih htail hmem'


theorem hotspot_title_inj {p q : String} (h : "Hotspot: " ++ p = "Hotspot: " ++ q) : p = q := by
  have hd := congrArg String.data h
  rw [String.data_append, String.data_append] at hd
  have := List.append_cancel_left hd
  cases p
  cases q
  exact congrArg String.mk this

theorem entry_find_file_to_errors (analyses : List ErrorAnalysisResult) (p : String) :
    entry_find (file_to_errors analyses) p
      = if hotspot_proposals analyses p = [] then none
        else some (p, hotspot_proposals analyses p) := by
  rw [file_to_errors_eq_foldl, entry_find_foldl, proposals_eq]
  rfl

theorem file_to_errors_keys_nodup (analyses : List ErrorAnalysisResult) :
    ((file_to_errors analyses).map Prod.fst).Nodup := by
  rw [file_to_errors_eq_foldl]
  exact keys_nodup_foldl _ [] (by simp)

/-- C5 amended: the detector emits a `systemic_issue` pattern for a file
path exactly when the number of file-change proposals targeting that path
across the analyses — counted per `file_change` entry, with multiplicity,
not as distinct error classes — is at least `min_size` (and at least 1, a
path with no proposal having no entry at all). -/
theorem file_hotspot_threshold (analyses : List ErrorAnalysisResult) (min_size : Nat) (path : String) :
    (∃ pat ∈ detect_file_hotspots analyses min_size,
        pat.title = "Hotspot: " ++ path ∧ pat.pattern_type = "systemic_issue")
    ↔ (1 ≤ (hotspot_proposals analyses path).length
        ∧ min_size ≤ (hotspot_proposals analyses path).length) := by
  constructor
  · rintro ⟨pat, hmem, htitle, -⟩
    rw [detect_file_hotspots, List.mem_filterMap] at hmem
    rcases hmem with ⟨e, he_mem, he_eq⟩
    by_cases hguard : min_size ≤ e.2.length
    · rw [if_pos hguard] at he_eq
      have hpat := Option.some.inj he_eq
      have htit : "Hotspot: " ++ e.1 = "Hotspot: " ++ path := by
        rw [← htitle, ← hpat]
        rfl
      have hep : e.1 = path := hotspot_title_inj htit
      have hfind : entry_find (file_to_errors analyses) path = some e :=
        entry_find_of_mem _ e path (file_to_errors_keys_nodup analyses) he_mem hep
      rw [entry_find_file_to_errors] at hfind
      by_cases hnil : hotspot_proposals analyses path = []
      · rw [if_pos hnil] at hfind
        cases hfind
      · rw [if_neg hnil] at hfind
        have he2 : e = (path, hotspot_proposals analyses path) := (Option.some.inj hfind).symm
        constructor
        · have := List.length_pos.mpr hnil
          omega
        · rw [he2] at hguard
          exact hguard
    · rw [if_neg hguard] at he_eq
      cases he_eq
  · rintro ⟨h1, hmin⟩
    have hnil : hotspot_proposals analyses path ≠ [] := by
      intro h
      rw [h] at h1
      simp at h1
    have hfind : entry_find (file_to_errors analyses) path
        = some (path, hotspot_proposals analyses path) := by
      rw [entry_find_file_to_errors, if_neg hnil]
    have hmem_e : (path, hotspot_proposals analyses path) ∈ file_to_errors analyses :=
      List.mem_of_find?_eq_some hfind
    refine ⟨hotspot_pattern path (hotspot_proposals analyses path), ?_, rfl, rfl⟩
    rw [detect_file_hotspots, List.mem_filterMap]
    exact ⟨(path, hotspot_proposals analyses path), hmem_e, by rw [if_pos hmin]⟩

/-- C5 counterexample: two analyses with the same error class `E`, each
proposing a change to `app/x.rb`, make the detector emit a hotspot pattern
at `min_size = 2` although only 1 distinct error class proposes a change to
that path; the threshold counts proposals, not distinct classes. -/
theorem hotspot_distinct_counterexample :
    (detect_file_hotspots [result_e, result_e] 2).map (fun pat => pat.title)
        = ["Hotspot: " ++ "app/x.rb"]
    ∧ (detect_file_hotspots [result_e, result_e] 2).map (fun pat => pat.pattern_type)
        = ["systemic_issue"]
    ∧ claim_distinct_classes [result_e, result_e] "app/x.rb" = 1
    ∧ ¬ (2 ≤ claim_distinct_classes [result_e, result_e] "app/x.rb") := by
  decide

/-- Witness for C5 amended: the backward direction applied to the concrete
pair of analyses with 2 proposals. -/
theorem file_hotspot_threshold_witness :
    ∃ pat ∈ detect_file_hotspots [result_e, result_e] 2,
      pat.title = "Hotspot: " ++ "app/x.rb" ∧ pat.pattern_type = "systemic_issue" :=
  (file_hotspot_threshold [result_e, result_e] 2 "app/x.rb").mpr (by decide)

/-! ## C2 — knowledge round trip

The written document's index entry scores at least 0.8 against its own
error; on an empty store the search round trip returns it, while a
populated store can push it out of the top k. -/

theorem match_score_self_bounds (error : ErrorGroup) (entry : IndexEntry)
    (tags : List String)
    (hec : error.error_class = entry.error_class)
    (htx : error.transaction = entry.transaction) :
    8/10 ≤ match_score error entry tags ∧ 0 < match_score error entry tags := by
  unfold match_score
  dsimp only
  rw [if_pos hec, if_pos htx]
  have hov : (0:ℚ) ≤ ((tags.filter fun t => entry.tags.contains t).length : ℚ) * (1/10) := by
    positivity
  unfold py_min
  split_ifs with h
  · constructor <;> linarith
  · constructor <;> norm_num

theorem compound_store_empty (date_str : String) (result : ErrorAnalysisResult) :
    (compound_result date_str result []).2 = [(compound_result date_str result []).1] := by
  simp [compound_result, write_doc]

theorem search_singleton (error : ErrorGroup) (doc : KnowledgeDoc) (k : Nat)
    (hec : error.error_class = doc.error_class)
    (htx : error.transaction = doc.transaction) :
    ∃ p : PriorAnalysis,
      search_prior_knowledge error (k + 1) (rebuild_index [doc]) [doc] = [p]
      ∧ p.source_file = "errors/" ++ doc.filename
      ∧ 8/10 ≤ p.match_score := by
  have hidx : rebuild_index [doc]
      = [{ file := "errors/" ++ doc.filename, error_class := doc.error_class,
           transaction := doc.transaction, fix_confidence := doc.fix_confidence,
           has_fix := doc.has_fix, tags := doc.tags }] := rfl
  rw [hidx]
  obtain ⟨hge, hpos⟩ := match_score_self_bounds error
    { file := "errors/" ++ doc.filename, error_class := doc.error_class,
      transaction := doc.transaction, fix_confidence := doc.fix_confidence,
      has_fix := doc.has_fix, tags := doc.tags }
    (extract_tags error) hec htx
  unfold search_prior_knowledge
  rw [if_neg (List.cons_ne_nil _ _)]
  dsimp only
  simp only [List.filterMap_cons, List.filterMap_nil, if_pos hpos]
  rw [show NightWatch.sort_by (fun a b : ℚ × IndexEntry => decide (b.1 ≤ a.1))
        [(match_score error
            { file := "errors/" ++ doc.filename, error_class := doc.error_class,
              transaction := doc.transaction, fix_confidence := doc.fix_confidence,
              has_fix := doc.has_fix, tags := doc.tags } (extract_tags error),
          { file := "errors/" ++ doc.filename, error_class := doc.error_class,
            transaction := doc.transaction, fix_confidence := doc.fix_confidence,
            has_fix := doc.has_fix, tags := doc.tags })]
      = [(match_score error
            { file := "errors/" ++ doc.filename, error_class := doc.error_class,
              transaction := doc.transaction, fix_confidence := doc.fix_confidence,
              has_fix := doc.has_fix, tags := doc.tags } (extract_tags error),
          { file := "errors/" ++ doc.filename, error_class := doc.error_class,
            transaction := doc.transaction, fix_confidence := doc.fix_confidence,
            has_fix := doc.has_fix, tags := doc.tags })] from rfl]
  rw [List.take_succ_cons, List.take_nil]
  simp only [List.filterMap_cons, List.filterMap_nil]
  rw [List.find?_cons_of_pos _ (by simp)]
  exact ⟨_, rfl, rfl, hge⟩

/-- C2 amended: the document written by `compound_result` always indexes
with a match score of at least 0.8 against its own error (exact error-class
and transaction matches alone contribute 0.8); when the store holds no
other documents, `search_prior_knowledge(r.error, k=3)` after
`compound_result(r); rebuild_index()` returns exactly the written document
with `match_score ≥ 0.8`.  With enough other entries of equal or higher
score the written document can drop out of the top 3 (see the
counterexample). -/
theorem knowledge_roundtrip (result : ErrorAnalysisResult) (date_str : String) :
    ∃ p : PriorAnalysis,
      search_prior_knowledge result.error 3
          (rebuild_index (compound_result date_str result []).2)
          (compound_result date_str result []).2
        = [p]
      ∧ p.source_file = "errors/" ++ (compound_result date_str result []).1.filename
      ∧ 8/10 ≤ p.match_score := by
  rw [compound_store_empty]
  rw [show (3:Nat) = 2 + 1 from rfl]
  exact search_singleton result.error (compound_result date_str result []).1 2
    (by simp [compound_result]) (by simp [compound_result])

/-- C2 counterexample: with three older documents for the same error class
and transaction already in the store (equal match scores, earlier
filenames), the document written by `compound_result` is ranked fourth by
the stable descending sort and falls outside the top `k = 3`: the search
returns only the three older documents, none of whose `source_file` is the
written document. -/
theorem knowledge_roundtrip_counterexample :
    (compound_result "4" result_et blocker_store).1.filename = "4_e-t.md"
    ∧ ((search_prior_knowledge err_et 3
          (rebuild_index (compound_result "4" result_et blocker_store).2)
          (compound_result "4" result_et blocker_store).2).map fun p => p.source_file)
        = ["errors/1_e-t.md", "errors/2_e-t.md", "errors/3_e-t.md"]
    ∧ ∀ p ∈ search_prior_knowledge err_et 3
          (rebuild_index (compound_result "4" result_et blocker_store).2)
          (compound_result "4" result_et blocker_store).2,
        p.source_file ≠ "errors/" ++ (compound_result "4" result_et blocker_store).1.filename := by
  have hmap : ((search_prior_knowledge err_et 3
        (rebuild_index (compound_result "4" result_et blocker_store).2)
        (compound_result "4" result_et blocker_store).2).map fun p => p.source_file)
      = ["errors/1_e-t.md", "errors/2_e-t.md", "errors/3_e-t.md"] := by  
    have hstore : (compound_result "4" result_et blocker_store).2
        = [blocker_doc "1", blocker_doc "2", blocker_doc "3",
           { filename := "4_e-t.md", error_class := "e", transaction := "t", message := "m",
             root_cause := "c", fix_confidence := "low", has_fix := false, tags := ["e", "t"],
             first_detected := "4",
             body := "# t\n\n## Root Cause\n\nc\n\n## Analysis\n\nr\n" }] := by
      decide
    have hidx : rebuild_index ((compound_result "4" result_et blocker_store).2)
        = [{ file := "errors/1_e-t.md", error_class := "e", transaction := "t",
                fix_confidence := "low", has_fix := false, tags := ["e", "t"] },
           { file := "errors/2_e-t.md", error_class := "e", transaction := "t",
                fix_confidence := "low", has_fix := false, tags := ["e", "t"] },
           { file := "errors/3_e-t.md", error_class := "e", transaction := "t",
                fix_confidence := "low", has_fix := false, tags := ["e", "t"] },
           { file := "errors/4_e-t.md", error_class := "e", transaction := "t",
                fix_confidence := "low", has_fix := false, tags := ["e", "t"] }] := by
      decide
    have hsc : ∀ f : String,
        match_score err_et
          { file := f, error_class := "e", transaction := "t",
             fix_confidence := "low", has_fix := false, tags := ["e", "t"] }
          ["e", "t"] = 1 := by
      intro f
      unfold match_score err_et
      dsimp only
      rw [show ((["e", "t"] : List String).filter
          (fun t => (["e", "t"] : List String).contains t)).length = 2 from rfl]
      norm_num [py_min]
    have hins : ∀ (x y : ℚ × IndexEntry) (ys : List (ℚ × IndexEntry)), x.1 = 1 → y.1 = 1 →
        insort_by (fun a b => decide (b.1 ≤ a.1)) x (y :: ys) = x :: y :: ys := by
      intro x y ys hx hy
      have hcond : decide (y.1 ≤ x.1) = true := by
        rw [hx, hy]
        simp
      unfold insort_by
      rw [if_pos hcond]
    rw [hidx, hstore]
    unfold search_prior_knowledge
    rw [if_neg (List.cons_ne_nil _ _)]
    dsimp only
    simp only [show extract_tags err_et = ["e", "t"] from rfl]
    simp only [List.filterMap_cons, List.filterMap_nil]
    simp only [hsc]
    norm_num
    have hsort : sort_by (fun (a b : ℚ × IndexEntry) => decide (b.1 ≤ a.1))
        [((1:ℚ), { file := "errors/1_e-t.md", error_class := "e", transaction := "t", fix_confidence := "low", has_fix := false, tags := ["e", "t"] }),
         ((1:ℚ), { file := "errors/2_e-t.md", error_class := "e", transaction := "t", fix_confidence := "low", has_fix := false, tags := ["e", "t"] }),
         ((1:ℚ), { file := "errors/3_e-t.md", error_class := "e", transaction := "t", fix_confidence := "low", has_fix := false, tags := ["e", "t"] }),
         ((1:ℚ), { file := "errors/4_e-t.md", error_class := "e", transaction := "t", fix_confidence := "low", has_fix := false, tags := ["e", "t"] })]
        = [((1:ℚ), { file := "errors/1_e-t.md", error_class := "e", transaction := "t", fix_confidence := "low", has_fix := false, tags := ["e", "t"] }),
         ((1:ℚ), { file := "errors/2_e-t.md", error_class := "e", transaction := "t", fix_confidence := "low", has_fix := false, tags := ["e", "t"] }),
         ((1:ℚ), { file := "errors/3_e-t.md", error_class := "e", transaction := "t", fix_confidence := "low", has_fix := false, tags := ["e", "t"] }),
         ((1:ℚ), { file := "errors/4_e-t.md", error_class := "e", transaction := "t", fix_confidence := "low", has_fix := false, tags := ["e", "t"] })] := by
      unfold sort_by
      rw [List.foldr_cons, List.foldr_cons, List.foldr_cons, List.foldr_cons, List.foldr_nil]
      rw [show insort_by (fun (a b : ℚ × IndexEntry) => decide (b.1 ≤ a.1))
          ((1:ℚ), { file := "errors/4_e-t.md", error_class := "e", transaction := "t", fix_confidence := "low", has_fix := false, tags := ["e", "t"] }) [] = [((1:ℚ), { file := "errors/4_e-t.md", error_class := "e", transaction := "t", fix_confidence := "low", has_fix := false, tags := ["e", "t"] })] from rfl]
      rw [hins _ _ _ rfl rfl, hins _ _ _ rfl rfl, hins _ _ _ rfl rfl]
    rw [hsort]
    rfl
  refine ⟨rfl, hmap, ?_⟩
  intro p hp
  have hmem : p.source_file ∈ (search_prior_knowledge err_et 3
      (rebuild_index (compound_result "4" result_et blocker_store).2)
      (compound_result "4" result_et blocker_store).2).map (fun p => p.source_file) :=
    List.mem_map_of_mem _ hp
  rw [hmap] at hmem
  rw [show "errors/" ++ (compound_result "4" result_et blocker_store).1.filename
      = "errors/4_e-t.md" from rfl]
  simp only [List.mem_cons, List.not_mem_nil, or_false] at hmem
  rcases hmem with h | h | h <;> rw [h] <;> decide

end NightWatch
